import Mathlib

/-!
# Verification of the spotify-player event-driven client/state engine

Shallow embedding of `src/spotify_player/src/client.rs` (event dispatch,
token refresh, playback control, playlist pagination) and
`src/spotify_player/src/state/ui/mod.rs` (UI page history, popup,
search filtering).  Remote I/O is modelled by an explicit environment
supplying each call's response; every remote call issued is recorded in
an ordered trace.
-/

namespace SpotifyPlayer

/-- The three-valued repeat state of `rspotify`'s `RepeatState`,
as matched in `client.rs` `cycle_repeat`. -/
inductive RepeatState where
  | Off
  | Track
  | Context
  deriving DecidableEq, Repr

/-- The shape of `rspotify`'s `CurrentlyPlaybackContext` as read by
`client.rs` (`is_playing`, `shuffle_state`, `repeat_state`). -/
structure CurrentlyPlaybackContext where
  is_playing : Bool
  shuffle_state : Bool
  repeat_state : RepeatState
  deriving DecidableEq, Repr

/-- A pagination page (`rspotify` `page::Page<T>`): items plus an optional
absolute URL of the next page. -/
structure Page (α : Type) where
  items : List α
  next : Option String
  deriving DecidableEq, Repr

/-- A playlist (`rspotify` `playlist::FullPlaylist`) as used by
`get_current_playlist_tracks`: its first page of tracks. -/
structure FullPlaylist (α : Type) where
  tracks : Page α
  deriving DecidableEq, Repr

/-- The shared application state (`state::State`) as read and written by
`client.rs` `handle_event`: fields `current_playback_context`,
`current_playlist`, `current_playlist_tracks`, `is_running`
(the spec's ApplicationState aggregate). -/
structure State (α : Type) where
  current_playback_context : Option CurrentlyPlaybackContext
  current_playlist : Option (FullPlaylist α)
  current_playlist_tracks : Option (List α)
  is_running : Bool
  deriving DecidableEq, Repr

/-- The client events of `event::Event` as matched in `handle_event`. -/
inductive Event where
  | RefreshToken
  | GetCurrentPlaybackContext
  | NextSong
  | PreviousSong
  | ResumePause
  | Shuffle
  | Repeat
  | Quit
  | GetPlaylist (playlist_id : String)
  | GetCurrentPlaylistTracks
  deriving DecidableEq, Repr

/-- One remote API call issued by the client, with its payload. -/
inductive RemoteCall where
  | refresh
  | currentPlayback
  | next
  | previous
  | pause
  | resume
  | shuffle (target : Bool)
  | setRepeat (target : RepeatState)
  | getPlaylist (id : String)
  | pageFetch (url : String)
  deriving DecidableEq, Repr

/-- The remote environment: the response each remote call would receive.
`pages` is the ordered sequence of responses to successive pagination
fetches (`internal_call`). -/
structure Env (α : Type) where
  token : Option Nat
  playback : Except String (Option CurrentlyPlaybackContext)
  nextR : Except String Unit
  prevR : Except String Unit
  pauseR : Except String Unit
  resumeR : Except String Unit
  shuffleR : Except String Unit
  repeatR : Except String Unit
  playlistR : Except String (FullPlaylist α)
  pages : List (Except String (Page α))

/-- Outcome of handling one event: the handler's result, the shared state
after the handler, and the trace of remote calls issued. -/
structure Outcome (α : Type) where
  res : Except String Unit
  state : State α
  calls : List RemoteCall

/-- `client.rs` `refresh_token`: `get_token` returning no token fails with
"auth failed"; otherwise the returned expiry is
`UNIX_EPOCH + expires_at seconds - 10 seconds`, i.e. the server-reported
absolute expiry (in seconds) minus a 10-second margin. -/
def refresh_token (token : Option Nat) : Except String Nat :=
  match token with
  | none => Except.error "auth failed"
  | some expires_at => Except.ok (expires_at - 10)

/-- `client.rs` `get_current_playback_state`: the playback context from the
shared state, or the precondition error when absent. -/
def get_current_playback_state (st : State α) :
    Except String CurrentlyPlaybackContext :=
  match st.current_playback_context with
  | some c => Except.ok c
  | none => Except.error "unable to get the currently playing context"

/-- The `match state.repeat_state` inside `client.rs` `cycle_repeat`
computing `next_repeat_state`. -/
def next_repeat_state : RepeatState → RepeatState
  | RepeatState.Off => RepeatState.Track
  | RepeatState.Track => RepeatState.Context
  | RepeatState.Context => RepeatState.Off

/-- `client.rs` `toggle_playing_state`: requires a playback context; pauses
when `is_playing`, resumes otherwise. Returns the result and the calls
issued. -/
def toggle_playing_state (env : Env α) (st : State α) :
    Except String Unit × List RemoteCall :=
  match get_current_playback_state st with
  | Except.error e => (Except.error e, [])
  | Except.ok c =>
    if c.is_playing then (env.pauseR, [RemoteCall.pause])
    else (env.resumeR, [RemoteCall.resume])

/-- `client.rs` `toggle_shuffle`: requires a playback context, then calls
`spotify.shuffle(state.shuffle_state, None)` — note the source passes the
current shuffle state itself, without negation. -/
def toggle_shuffle (env : Env α) (st : State α) :
    Except String Unit × List RemoteCall :=
  match get_current_playback_state st with
  | Except.error e => (Except.error e, [])
  | Except.ok c => (env.shuffleR, [RemoteCall.shuffle c.shuffle_state])

/-- `client.rs` `cycle_repeat`: requires a playback context, then calls
`spotify.repeat(next_repeat_state, None)`. -/
def cycle_repeat (env : Env α) (st : State α) :
    Except String Unit × List RemoteCall :=
  match get_current_playback_state st with
  | Except.error e => (Except.error e, [])
  | Except.ok c =>
    (env.repeatR, [RemoteCall.setRepeat (next_repeat_state c.repeat_state)])

/-- The `while let Some(url) = next` loop of
`get_current_playlist_tracks`: while a next URL exists, fetch the page
(consuming the next environment response), append its items, and follow
its next pointer.  A fetch error aborts the loop and propagates.  The
environment must supply one response per fetch; an exhausted response
list is modelled as a transport error. -/
def fetchLoop (tracks : List α) (next : Option String)
    (pages : List (Except String (Page α))) :
    Except String (List α) × List RemoteCall :=
  match next with
  | none => (Except.ok tracks, [])
  | some url =>
    match pages with
    | [] => (Except.error "no response", [RemoteCall.pageFetch url])
    | Except.error e :: _ => (Except.error e, [RemoteCall.pageFetch url])
    | Except.ok p :: rest =>
      let r := fetchLoop (tracks ++ p.items) p.next rest
      (r.1, RemoteCall.pageFetch url :: r.2)

/-- `client.rs` `get_current_playlist_tracks`: `tracks` starts empty; when a
current playlist is present it is seeded with the playlist's first page
items and the pagination loop runs from the first page's next pointer. -/
def get_current_playlist_tracks (env : Env α) (st : State α) :
    Except String (List α) × List RemoteCall :=
  match st.current_playlist with
  | none => (Except.ok [], [])
  | some playlist => fetchLoop playlist.tracks.items playlist.tracks.next env.pages

/-- `client.rs` `handle_event`: dispatch one event against the shared
state, returning the result, the updated state, and the remote calls
issued.  Each `?` in the source is an early return that leaves the state
write unexecuted. -/
def handleEvent (env : Env α) (st : State α) : Event → Outcome α
  | Event.RefreshToken =>
    match refresh_token env.token with
    | Except.ok _ => ⟨Except.ok (), st, [RemoteCall.refresh]⟩
    | Except.error e => ⟨Except.error e, st, [RemoteCall.refresh]⟩
  | Event.GetCurrentPlaybackContext =>
    match env.playback with
    | Except.ok c =>
      ⟨Except.ok (), { st with current_playback_context := c },
        [RemoteCall.currentPlayback]⟩
    | Except.error e => ⟨Except.error e, st, [RemoteCall.currentPlayback]⟩
  | Event.NextSong => ⟨env.nextR, st, [RemoteCall.next]⟩
  | Event.PreviousSong => ⟨env.prevR, st, [RemoteCall.previous]⟩
  | Event.ResumePause =>
    let r := toggle_playing_state env st
    ⟨r.1, st, r.2⟩
  | Event.Shuffle =>
    let r := toggle_shuffle env st
    ⟨r.1, st, r.2⟩
  | Event.Repeat =>
    let r := cycle_repeat env st
    ⟨r.1, st, r.2⟩
  | Event.Quit => ⟨Except.ok (), { st with is_running := false }, []⟩
  | Event.GetPlaylist playlist_id =>
    match env.playlistR with
    | Except.ok p =>
      ⟨Except.ok (), { st with current_playlist := some p },
        [RemoteCall.getPlaylist playlist_id]⟩
    | Except.error e => ⟨Except.error e, st, [RemoteCall.getPlaylist playlist_id]⟩
  | Event.GetCurrentPlaylistTracks =>
    match get_current_playlist_tracks env st with
    | (Except.ok tracks, calls) =>
      ⟨Except.ok (), { st with current_playlist_tracks := some tracks }, calls⟩
    | (Except.error e, calls) => ⟨Except.error e, st, calls⟩

/-- Well-formedness of a pagination response sequence for a given starting
next-pointer: the chain of responses terminates exactly when a page with
no next reference is delivered. -/
def chainOk : Option String → List (Page α) → Bool
  | none, [] => true
  | none, _ :: _ => false
  | some _, [] => false
  | some _, p :: ps => chainOk p.next ps

/-! ## UI state (`state/ui/mod.rs`) -/

/-- Modelled from the spec: the `PageState` variants live in the module
file `state/ui/page.rs`, which is not part of the provided sources; the
spec describes PageState as polymorphic over variants Library and
Context (with optional sub-state), each carrying its own list-selection
cursor. -/
inductive PageState where
  | Library (cursor : Nat)
  | Context (sub : Option Nat) (cursor : Nat)
  deriving DecidableEq, Repr

/-- Modelled from the spec: the `PopupState` variants live in the module
file `state/ui/popup.rs`, which is not part of the provided sources; the
spec describes PopupState as polymorphic over variants including
Search{query}, and `command.rs` and the spec name further popups
(command help, playlist/theme/device switchers). -/
inductive PopupState where
  | Search (query : String)
  | CommandHelp
  | PlaylistList
  | ThemeList
  | DeviceList
  deriving DecidableEq, Repr

/-- `state/ui/mod.rs` `UIState`: the fields the verified operations touch
(`is_running`, page `history`, optional `popup`). -/
structure UIState where
  is_running : Bool
  history : List PageState
  popup : Option PopupState
  deriving DecidableEq, Repr

/-- `UIState::current_page`: the last element of `history` (the source
`expect`s non-emptiness; absent is modelled as `none`). -/
def current_page (ui : UIState) : Option PageState :=
  ui.history.getLast?

/-- `UIState::new_page`: push the page onto the history and clear the
popup. -/
def new_page (ui : UIState) (page : PageState) : UIState :=
  { ui with history := ui.history ++ [page], popup := none }

/-- Character-level substring test mirroring Rust's `str::contains` for a
string pattern: some contiguous run of `s` equals `pat`. -/
def containsSubChars (pat : List Char) : List Char → Bool
  | [] => pat.isEmpty
  | c :: rest => pat.isPrefixOf (c :: rest) || containsSubChars pat rest

/-- Rust `String::contains` on strings. -/
def containsSub (s pat : String) : Bool :=
  containsSubChars pat.data s.data

/-- Rust `str::to_lowercase`, modelled as per-character simple lowercase
mapping. -/
def toLowercase (s : String) : String :=
  String.mk (s.data.map Char.toLower)

/-- `UIState::search_filtered_items` (default build, without the `fzf`
feature): when a Search popup is active, keep the items whose lowercased
textual representation contains some non-empty space-separated token of
the lowercased query; an empty query keeps everything; with no Search
popup the items are returned as they are.  The Rust function returns a
`Vec<&T>` of references into the slice; the embedding returns the
selected elements. -/
def search_filtered_items (toStr : α → String) (ui : UIState)
    (items : List α) : List α :=
  match ui.popup with
  | some (PopupState.Search query) =>
    let query := toLowercase query
    items.filter (fun t =>
      if query.isEmpty then true
      else
        let t := toLowercase (toStr t)
        (query.splitOn " ").any (fun q => !q.isEmpty && containsSub t q))
  | _ => items

/-! ## Shared sample data for witness statements -/

/-- A concrete remote environment where every playback-control call
succeeds. -/
def sampleEnv : Env Nat where
  token := some 3600
  playback := Except.ok none
  nextR := Except.ok ()
  prevR := Except.ok ()
  pauseR := Except.ok ()
  resumeR := Except.ok ()
  shuffleR := Except.ok ()
  repeatR := Except.ok ()
  playlistR := Except.error "remote"
  pages := []

/-! ## Claim theorems -/

/-- C4: the repeat-state successor used by the Repeat event maps
Off to Track, Track to Context and Context to Off, and applying it three
times to any repeat state yields the starting state again. -/
theorem next_repeat_state_cycles :
    (next_repeat_state RepeatState.Off = RepeatState.Track ∧
     next_repeat_state RepeatState.Track = RepeatState.Context ∧
     next_repeat_state RepeatState.Context = RepeatState.Off) ∧
    ∀ s, next_repeat_state (next_repeat_state (next_repeat_state s)) = s := by
  refine ⟨⟨rfl, rfl, rfl⟩, ?_⟩
  intro s
  cases s <;> rfl

/-- C5: a successful token refresh returns the server-reported expiry
minus the fixed 10-second margin; in particular a server expiry
`now + 3600` yields `now + 3590`. -/
theorem refresh_token_margin (now : Nat) :
    refresh_token (some (now + 3600)) = Except.ok (now + 3590) ∧
    ∀ e, 10 ≤ e → refresh_token (some e) = Except.ok (e - 10) := by
  constructor
  · simp only [refresh_token]
    congr 1
  · intro e _
    rfl

/-- Witness for C5 at `now = 0`, `e = 3600`. -/
theorem refresh_token_margin_witness :
    refresh_token (some (0 + 3600)) = Except.ok (0 + 3590) ∧
    10 ≤ 3600 ∧ refresh_token (some 3600) = Except.ok (3600 - 10) :=
  ⟨(refresh_token_margin 0).1, by decide,
    (refresh_token_margin 0).2 3600 (by decide)⟩

/-- C7: `new_page` always clears the popup, appends the page to the
history, and makes it the current page. -/
theorem new_page_clears_popup (ui : UIState) (p : PageState) :
    (new_page ui p).popup = none ∧
    (new_page ui p).history = ui.history ++ [p] ∧
    current_page (new_page ui p) = some p := by
  refine ⟨rfl, rfl, ?_⟩
  simp [current_page, new_page]

/-- C1 (failing input): with a playback context whose `shuffle_state` is
`true`, handling the Shuffle event issues `shuffle(true)` — the current
value — not the negated `shuffle(false)` the spec demands; the source's
own doc comment says it "toggles" the shuffle state. -/
theorem toggle_shuffle_issues_current_state (env : Env Nat)
    (pl : Option (FullPlaylist Nat)) (tr : Option (List Nat)) (r : Bool) :
    (handleEvent env
        ⟨some ⟨true, true, RepeatState.Off⟩, pl, tr, r⟩ Event.Shuffle).calls
      = [RemoteCall.shuffle true] ∧
    (handleEvent env
        ⟨some ⟨true, true, RepeatState.Off⟩, pl, tr, r⟩ Event.Shuffle).calls
      ≠ [RemoteCall.shuffle false] := by
  refine ⟨rfl, ?_⟩
  intro h
  simp [handleEvent, toggle_shuffle, get_current_playback_state] at h

/-- C3: with a playback context present, ResumePause issues a pause call
when `is_playing` and a resume call otherwise; with no context it fails
with the precondition error and issues no remote call. -/
theorem resume_pause_branches (env : Env α) (st : State α) :
    (∀ c, st.current_playback_context = some c → c.is_playing = true →
      (handleEvent env st Event.ResumePause).calls = [RemoteCall.pause]) ∧
    (∀ c, st.current_playback_context = some c → c.is_playing = false →
      (handleEvent env st Event.ResumePause).calls = [RemoteCall.resume]) ∧
    (st.current_playback_context = none →
      (handleEvent env st Event.ResumePause).res =
        Except.error "unable to get the currently playing context" ∧
      (handleEvent env st Event.ResumePause).calls = []) := by
  refine ⟨?_, ?_, ?_⟩
  · intro c hc hp
    simp [handleEvent, toggle_playing_state, get_current_playback_state, hc, hp]
  · intro c hc hp
    simp [handleEvent, toggle_playing_state, get_current_playback_state, hc, hp]
  · intro hc
    simp [handleEvent, toggle_playing_state, get_current_playback_state, hc]

/-- Witness for C3: all three branches at concrete states. -/
theorem resume_pause_branches_witness :
    (handleEvent sampleEnv
        ⟨some ⟨true, false, RepeatState.Off⟩, none, none, true⟩
        Event.ResumePause).calls = [RemoteCall.pause] ∧
    (handleEvent sampleEnv
        ⟨some ⟨false, false, RepeatState.Off⟩, none, none, true⟩
        Event.ResumePause).calls = [RemoteCall.resume] ∧
    ((handleEvent sampleEnv (⟨none, none, none, true⟩ : State Nat)
        Event.ResumePause).res =
      Except.error "unable to get the currently playing context" ∧
     (handleEvent sampleEnv (⟨none, none, none, true⟩ : State Nat)
        Event.ResumePause).calls = []) :=
  ⟨(resume_pause_branches sampleEnv _).1 ⟨true, false, RepeatState.Off⟩ rfl rfl,
   (resume_pause_branches sampleEnv _).2.1 ⟨false, false, RepeatState.Off⟩ rfl rfl,
   (resume_pause_branches sampleEnv _).2.2 rfl⟩

/-- C8: handling Quit sets `is_running` to `false`, and no event handler
ever sets it back to `true`: once false it stays false under every
event. -/
theorem quit_is_terminal (α : Type) :
    (∀ (env : Env α) (st : State α),
      (handleEvent env st Event.Quit).state.is_running = false) ∧
    (∀ (env : Env α) (st : State α) (e : Event), st.is_running = false →
      (handleEvent env st e).state.is_running = false) := by
  constructor
  · intro env st
    rfl
  · intro env st e h
    cases e <;> simp only [handleEvent] <;> (try split) <;> simp [h]

/-- Witness for C8: Quit turns the flag off; a subsequent NextSong leaves
it off. -/
theorem quit_is_terminal_witness :
    (handleEvent sampleEnv (⟨none, none, none, true⟩ : State Nat)
      Event.Quit).state.is_running = false ∧
    ((⟨none, none, none, false⟩ : State Nat).is_running = false ∧
     (handleEvent sampleEnv (⟨none, none, none, false⟩ : State Nat)
       Event.NextSong).state.is_running = false) :=
  ⟨(quit_is_terminal Nat).1 sampleEnv _,
   rfl, (quit_is_terminal Nat).2 sampleEnv ⟨none, none, none, false⟩
     Event.NextSong rfl⟩

/-- C10: with no current playlist, GetCurrentPlaylistTracks makes no
remote call, succeeds, and overwrites `current_playlist_tracks` with an
empty list rather than failing with a precondition error. -/
theorem no_playlist_yields_empty_tracks (env : Env α) (st : State α)
    (h : st.current_playlist = none) :
    (handleEvent env st Event.GetCurrentPlaylistTracks).res = Except.ok () ∧
    (handleEvent env st Event.GetCurrentPlaylistTracks).state =
      { st with current_playlist_tracks := some [] } ∧
    (handleEvent env st Event.GetCurrentPlaylistTracks).calls = [] := by
  simp [handleEvent, get_current_playlist_tracks, h]

/-- Witness for C10 at a concrete playlist-less state. -/
theorem no_playlist_yields_empty_tracks_witness :
    (⟨none, none, none, true⟩ : State Nat).current_playlist = none ∧
    (handleEvent sampleEnv (⟨none, none, none, true⟩ : State Nat)
      Event.GetCurrentPlaylistTracks).res = Except.ok () ∧
    (handleEvent sampleEnv (⟨none, none, none, true⟩ : State Nat)
      Event.GetCurrentPlaylistTracks).state =
      ⟨none, none, some [], true⟩ ∧
    (handleEvent sampleEnv (⟨none, none, none, true⟩ : State Nat)
      Event.GetCurrentPlaylistTracks).calls = [] :=
  ⟨rfl, no_playlist_yields_empty_tracks sampleEnv ⟨none, none, none, true⟩ rfl⟩

/-- C6: whenever handling GetCurrentPlaylistTracks returns an error — in
particular when a pagination page fetch fails — the shared state is left
unchanged: partially accumulated tracks are never written. -/
theorem tracks_fetch_error_preserves_state (env : Env α) (st : State α)
    (msg : String)
    (h : (handleEvent env st Event.GetCurrentPlaylistTracks).res =
      Except.error msg) :
    (handleEvent env st Event.GetCurrentPlaylistTracks).state = st := by
  rcases hg : get_current_playlist_tracks env st with ⟨r, calls⟩
  cases r with
  | ok t => simp [handleEvent, hg] at h
  | error e => simp [handleEvent, hg]

/-- Witness for C6: the first page fetch fails; the handler reports the
error and the state, playlist included, is untouched. -/
theorem tracks_fetch_error_preserves_state_witness :
    (handleEvent
        ({ sampleEnv with pages := [Except.error "boom"] })
        (⟨none, some ⟨⟨[1, 2], some "u"⟩⟩, none, true⟩ : State Nat)
        Event.GetCurrentPlaylistTracks).res = Except.error "boom" ∧
    (handleEvent
        ({ sampleEnv with pages := [Except.error "boom"] })
        (⟨none, some ⟨⟨[1, 2], some "u"⟩⟩, none, true⟩ : State Nat)
        Event.GetCurrentPlaylistTracks).state =
      ⟨none, some ⟨⟨[1, 2], some "u"⟩⟩, none, true⟩ :=
  ⟨rfl, tracks_fetch_error_preserves_state _ _ "boom" rfl⟩

/-- The pagination loop over a well-formed chain of successful responses
appends every page's items, in response order, to the accumulator. -/
theorem fetchLoop_chain (rest : List (Page α)) :
    ∀ (acc : List α) (next : Option String), chainOk next rest = true →
      (fetchLoop acc next (rest.map Except.ok)).1 =
        Except.ok (acc ++ (rest.map Page.items).flatten) := by
  induction rest with
  | nil =>
    intro acc next h
    cases next with
    | none => simp [fetchLoop]
    | some u => simp [chainOk] at h
  | cons p ps ih =>
    intro acc next h
    cases next with
    | none => simp [chainOk] at h
    | some u =>
      simp only [chainOk] at h
      simp only [List.map_cons, fetchLoop]
      rw [ih (acc ++ p.items) p.next h]
      simp

/-- C2: over a pagination response sequence terminating in a page with no
next reference, draining the current playlist's tracks returns the
concatenation of all pages' items (the seed's first page followed by each
fetched page) in response order, whose length is the sum of the per-page
item counts. -/
theorem get_current_playlist_tracks_drains (env : Env α) (st : State α)
    (p : FullPlaylist α) (rest : List (Page α))
    (hpl : st.current_playlist = some p)
    (hpages : env.pages = rest.map Except.ok)
    (hchain : chainOk p.tracks.next rest = true) :
    (get_current_playlist_tracks env st).1 =
      Except.ok (((p.tracks :: rest).map Page.items).flatten) ∧
    (((p.tracks :: rest).map Page.items).flatten).length =
      ((p.tracks :: rest).map (fun q => q.items.length)).sum := by
  constructor
  · simp only [get_current_playlist_tracks, hpl, hpages]
    rw [fetchLoop_chain rest p.tracks.items p.tracks.next hchain]
    simp
  · simp only [List.length_flatten, List.map_map]
    rfl

/-- Witness for C2: a seed page of two tracks followed by two fetched
pages drains to all five tracks in order. -/
theorem get_current_playlist_tracks_drains_witness :
    (⟨none, some ⟨⟨[1, 2], some "u1"⟩⟩, none, true⟩ : State Nat).current_playlist
        = some ⟨⟨[1, 2], some "u1"⟩⟩ ∧
    ({ sampleEnv with
        pages := [Except.ok ⟨[3, 4], some "u2"⟩, Except.ok ⟨[5], none⟩] }).pages
      = [Page.mk [3, 4] (some "u2"), Page.mk [5] none].map Except.ok ∧
    chainOk (some "u1") [Page.mk [3, 4] (some "u2"), Page.mk [5] none] = true ∧
    (get_current_playlist_tracks
        ({ sampleEnv with
          pages := [Except.ok ⟨[3, 4], some "u2"⟩, Except.ok ⟨[5], none⟩] })
        (⟨none, some ⟨⟨[1, 2], some "u1"⟩⟩, none, true⟩ : State Nat)).1 =
      Except.ok [1, 2, 3, 4, 5] ∧
    ([1, 2, 3, 4, 5] : List Nat).length = 2 + (2 + (1 + 0)) := by
  refine ⟨rfl, rfl, rfl, ?_⟩
  have h := get_current_playlist_tracks_drains
    ({ sampleEnv with
      pages := [Except.ok ⟨[3, 4], some "u2"⟩, Except.ok ⟨[5], none⟩] })
    (⟨none, some ⟨⟨[1, 2], some "u1"⟩⟩, none, true⟩ : State Nat)
    ⟨⟨[1, 2], some "u1"⟩⟩ [Page.mk [3, 4] (some "u2"), Page.mk [5] none]
    rfl rfl rfl
  exact ⟨h.1, h.2⟩

/-- C9: `search_filtered_items` with an active Search popup whose query is
empty — or with no Search popup active — returns every input item
unchanged, in the original order. -/
theorem search_filtered_items_empty_query (toStr : α → String)
    (ui : UIState) (items : List α) :
    (ui.popup = some (PopupState.Search "") →
      search_filtered_items toStr ui items = items) ∧
    ((∀ q, ui.popup ≠ some (PopupState.Search q)) →
      search_filtered_items toStr ui items = items) := by
  constructor
  · intro h
    have hq : (toLowercase "").isEmpty = true := rfl
    simp [search_filtered_items, h, hq]
  · intro h
    rcases hp : ui.popup with _ | pop
    · simp [search_filtered_items, hp]
    · cases pop with
      | Search q => exact absurd hp (h q)
      | CommandHelp => simp [search_filtered_items, hp]
      | PlaylistList => simp [search_filtered_items, hp]
      | ThemeList => simp [search_filtered_items, hp]
      | DeviceList => simp [search_filtered_items, hp]

/-- Witness for C9: an empty-query Search popup and no popup at all both
leave a concrete item list untouched. -/
theorem search_filtered_items_empty_query_witness :
    search_filtered_items (fun s => s)
        ⟨true, [], some (PopupState.Search "")⟩ ["Foobar", "baz"]
      = ["Foobar", "baz"] ∧
    search_filtered_items (fun s => s) ⟨true, [], none⟩ ["Foobar", "baz"]
      = ["Foobar", "baz"] :=
  ⟨(search_filtered_items_empty_query (fun s => s)
      ⟨true, [], some (PopupState.Search "")⟩ ["Foobar", "baz"]).1 rfl,
   (search_filtered_items_empty_query (fun s => s)
      ⟨true, [], none⟩ ["Foobar", "baz"]).2 (by intro q h; simp at h)⟩

end SpotifyPlayer
